import Mathlib

/-!
Verification of the core of the `leitor_ytb` repository: the rate-limited
Gemini sentiment analyzer (`sentiment_analyzer.py`) and the YouTube comment
extractor (`youtube_extractor.py`).

The Python code is shallowly embedded below.  Conventions:

* wall-clock instants (`datetime.now()`) are integers counting seconds;
  `timedelta(minutes=1)` is the integer 60;
* the `deque(maxlen=rate_limit)` of request timestamps is a `List Int`
  kept oldest-first; `append` on a full deque drops the left end;
* Python exceptions are `Except String`;
* JSON values produced by `json.loads` are the inductive `PyVal`;
  JSON numbers are exact decimals `PyNum` (all numeric literals in the
  claims are exactly representable, so no floating-point rounding is
  involved);
* external services (the Gemini call, the YouTube Data API) are inputs:
  an `Except`-valued outcome for the model call and a record of
  `Except`-valued request functions for the YouTube service.
-/

/-- `self.rate_limit` from `GeminiSentimentAnalyzer.__init__`: 15 requests
per minute. -/
def rate_limit : Nat := 15

/-- The eviction loop of `_apply_rate_limiting` (lines 190-192): pop
timestamps strictly older than `now - timedelta(minutes=1)` from the front
of the deque. -/
def evictOld (now : Int) (ts : List Int) : List Int :=
  ts.dropWhile (fun t => decide (t < now - 60))

/-- `GeminiSentimentAnalyzer._apply_rate_limiting` (lines 178-208) for a
limiter with quota `quota` (= `self.rate_limit`).  Input: the current time
and the timestamp deque.  Output: the time at which the function returns
(after any `time.sleep`) and the deque as left by the eviction loop.
The code sleeps only when the computed `wait_time` is positive. -/
def apply_rate_limiting (quota : Nat) (now : Int) (ts : List Int) : Int × List Int :=
  if ts.isEmpty then (now, ts)
  else
    let ts1 := evictOld now ts
    if quota ≤ ts1.length then
      match ts1 with
      | [] => (now, ts1)
      | t0 :: _ =>
        let wait := t0 + 60 - now
        if 0 < wait then (now + wait, ts1) else (now, ts1)
    else (now, ts1)

/-- The `wait_time` expression of line 198, computed exactly when the code
computes it (deque at capacity after eviction); `0` in the branches where
the code computes no wait. -/
def computedWait (quota : Nat) (now : Int) (ts : List Int) : Int :=
  if ts.isEmpty then 0
  else
    let ts1 := evictOld now ts
    if quota ≤ ts1.length then
      match ts1 with
      | [] => 0
      | t0 :: _ => t0 + 60 - now
    else 0

/-- `deque.append` with `maxlen = cap` (the deque of line 27): appending to
a full deque drops the oldest element.  Used with `cap = rate_limit > 0`. -/
def dequeAppend (cap : Nat) (x : Int) (ts : List Int) : List Int :=
  if cap ≤ ts.length then ts.tail ++ [x] else ts ++ [x]

/-- Number of recorded timestamps inside the rolling 60-second window ending
at `w`, with the boundary convention of the eviction loop (a timestamp is in
the window iff it is not older than `w - 60`). -/
def windowCount (w : Int) (ts : List Int) : Nat :=
  (ts.filter (fun t => decide (w - 60 ≤ t) && decide (t ≤ w))).length

theorem dropWhile_head_false {p : Int → Bool} :
    ∀ (l : List Int) (a : Int) (as : List Int), l.dropWhile p = a :: as → p a = false := by
  intro l
  induction l with
  | nil => intro a as h; simp [List.dropWhile] at h
  | cons b bs ih =>
    intro a as h
    by_cases hb : p b
    · rw [List.dropWhile_cons_of_pos hb] at h
      exact ih a as h
    · rw [List.dropWhile_cons_of_neg hb] at h
      cases h
      simpa using hb

theorem dropWhile_length_le {p : Int → Bool} :
    ∀ l : List Int, (l.dropWhile p).length ≤ l.length := by
  intro l
  induction l with
  | nil => simp [List.dropWhile]
  | cons b bs ih =>
    by_cases hb : p b
    · rw [List.dropWhile_cons_of_pos hb]
      exact le_trans ih (Nat.le_succ _)
    · rw [List.dropWhile_cons_of_neg hb]

theorem evictOld_length_le (now : Int) (ts : List Int) :
    (evictOld now ts).length ≤ ts.length := by
  unfold evictOld
  exact dropWhile_length_le ts

theorem apply_rate_limiting_snd (quota : Nat) (now : Int) (ts : List Int) :
    (apply_rate_limiting quota now ts).2 = ts ∨
      (apply_rate_limiting quota now ts).2 = evictOld now ts := by
  unfold apply_rate_limiting
  split
  · exact Or.inl rfl
  · dsimp only
    split
    · split
      · exact Or.inr rfl
      · split
        · exact Or.inr rfl
        · exact Or.inr rfl
    · exact Or.inr rfl

theorem windowCount_le_length (w : Int) (ts : List Int) :
    windowCount w ts ≤ ts.length := by
  unfold windowCount
  exact ts.length_filter_le _

theorem dequeAppend_length_le (cap : Nat) (x : Int) (ts : List Int)
    (hcap : 0 < cap) (h : ts.length ≤ cap) :
    (dequeAppend cap x ts).length ≤ cap := by
  unfold dequeAppend
  split
  · rename_i hfull
    have hlen : ts.length = cap := Nat.le_antisymm h hfull
    have htail : ts.tail.length = ts.length - 1 := ts.length_tail
    simp only [List.length_append, List.length_cons, List.length_nil]
    omega
  · rename_i hnot
    simp only [List.length_append, List.length_cons, List.length_nil]
    omega

/-- C1: for every quota `q` and every limiter state reachable through one
analyzer instance (the deque holds at most `q` timestamps — its `maxlen`),
when `_apply_rate_limiting` returns (a) the computed `wait_time` is never
negative, (b) the function never travels backwards in time, (c) no rolling
60-second window contains more than `q` recorded dispatch timestamps at
return, (d) the same holds after the dispatch timestamp is appended at
line 85, and (e) the deque bound `≤ q` is preserved by the append, so the
hypothesis is an invariant of every call sequence. -/
theorem rate_limiter_window_invariant (quota : Nat) (now : Int) (ts : List Int)
    (hq : 0 < quota) (hlen : ts.length ≤ quota) :
    0 ≤ computedWait quota now ts ∧
    0 ≤ (apply_rate_limiting quota now ts).1 - now ∧
    (∀ w : Int, windowCount w (apply_rate_limiting quota now ts).2 ≤ quota) ∧
    (∀ w : Int,
      windowCount w
        (dequeAppend quota (apply_rate_limiting quota now ts).1
          (apply_rate_limiting quota now ts).2) ≤ quota) ∧
    (dequeAppend quota (apply_rate_limiting quota now ts).1
        (apply_rate_limiting quota now ts).2).length ≤ quota := by
  have hsnd_le : (apply_rate_limiting quota now ts).2.length ≤ quota := by
    rcases apply_rate_limiting_snd quota now ts with h | h
    · rw [h]; exact hlen
    · rw [h]; exact le_trans (evictOld_length_le now ts) hlen
  refine ⟨?_, ?_, ?_, ?_, ?_⟩
  · -- the computed wait_time is never negative
    unfold computedWait
    split
    · omega
    · dsimp only
      split
      · split
        · omega
        · rename_i t0 rest heq
          have hhead := dropWhile_head_false (p := fun t => decide (t < now - 60)) ts t0 rest heq
          have : ¬ (t0 < now - 60) := by simpa using hhead
          omega
      · omega
  · -- the function never returns at a time earlier than it was called
    unfold apply_rate_limiting
    split
    · omega
    · dsimp only
      split
      · split
        · omega
        · split
          · dsimp only; omega
          · omega
      · omega
  · -- window bound at the moment _apply_rate_limiting returns
    intro w
    exact le_trans (windowCount_le_length w _) hsnd_le
  · -- window bound after the dispatch timestamp is appended (line 85)
    intro w
    exact le_trans (windowCount_le_length w _)
      (dequeAppend_length_le quota _ _ hq hsnd_le)
  · exact dequeAppend_length_le quota _ _ hq hsnd_le

theorem rate_limiter_window_invariant_witness :
    (0 < rate_limit ∧ ([(50 : Int)] : List Int).length ≤ rate_limit) ∧
    0 ≤ computedWait rate_limit 100 [(50 : Int)] ∧
    0 ≤ (apply_rate_limiting rate_limit 100 [(50 : Int)]).1 - 100 ∧
    windowCount 100 (apply_rate_limiting rate_limit 100 [(50 : Int)]).2 ≤ rate_limit ∧
    windowCount 100
      (dequeAppend rate_limit (apply_rate_limiting rate_limit 100 [(50 : Int)]).1
        (apply_rate_limiting rate_limit 100 [(50 : Int)]).2) ≤ rate_limit :=
  ⟨⟨by decide, by decide⟩,
    (rate_limiter_window_invariant rate_limit 100 [(50 : Int)] (by decide) (by decide)).1,
    (rate_limiter_window_invariant rate_limit 100 [(50 : Int)] (by decide) (by decide)).2.1,
    (rate_limiter_window_invariant rate_limit 100 [(50 : Int)] (by decide) (by decide)).2.2.1 100,
    (rate_limiter_window_invariant rate_limit 100 [(50 : Int)] (by decide) (by decide)).2.2.2.1 100⟩

/-! ## The response parser of `analyze_sentiment` (lines 88-168)

`json.loads` is modelled by `jsonLoadsL`, a fuel-indexed recursive-descent
decoder over the JSON grammar Python's strict decoder accepts (objects,
arrays, strings with the standard escapes, numbers, `true`/`false`/`null`);
`PyVal` is the decoded Python value.  Simplifications that are irrelevant to
every theorem below (they only change on which malformed texts the decode
fails, and every theorem quantifying over all texts is proved by cases on
the decoder's outcome): unescaped control characters inside strings are not
rejected, `NaN`/`Infinity` literals are rejected, and surrogate pairs are
not combined. -/

/-- A Python number in exact decimal form: the value `mant · 10^(-shift)`.
(Python's binary floats cannot represent most decimals exactly, but every
comparison made by the code and the claims is between numbers decoded from
the same decimal literals, so the exact-decimal model is faithful;
`PyNum.toRat` gives the denoted rational.) -/
structure PyNum where
  mant : Int
  shift : Nat
deriving DecidableEq

def PyNum.toRat (d : PyNum) : Rat := (d.mant : Rat) / 10 ^ d.shift

inductive PyVal where
  | vnull : PyVal
  | vbool : Bool → PyVal
  | vnum : PyNum → PyVal
  | vstr : String → PyVal
  | vlist : List PyVal → PyVal
  | vdict : List (String × PyVal) → PyVal

def pvIsNum : PyVal → Bool
  | PyVal.vnum _ => true
  | _ => false

/-- Python `str` whitespace (`str.strip`, regex `\s`): space, `\t`, `\n`,
`\r`, `\x0b`, `\x0c`. -/
def pyWs (c : Char) : Bool :=
  c == ' ' || c == '\t' || c == '\n' || c == '\r' || c == '\x0b' || c == '\x0c'

/-- `str.strip()` on a character list. -/
def trimL (cs : List Char) : List Char :=
  ((cs.dropWhile pyWs).reverse.dropWhile pyWs).reverse

def startsWithCL : List Char → List Char → Bool
  | [], _ => true
  | _ :: _, [] => false
  | a :: as, b :: bs => a == b && startsWithCL as bs

/-- Python's `needle in hay` substring test. -/
def containsCL (needle : List Char) : List Char → Bool
  | [] => startsWithCL needle []
  | c :: rest => startsWithCL needle (c :: rest) || containsCL needle rest

def strContains (hay needle : String) : Bool :=
  containsCL needle.data hay.data

/-- `str.replace(pat, rep)`: replace non-overlapping occurrences left to
right.  `fuel ≥ length + 1` makes the recursion total; each step consumes
at least one character for the non-empty patterns used here. -/
def replaceL : Nat → List Char → List Char → List Char → List Char
  | 0, _, _, cs => cs
  | _ + 1, _, _, [] => []
  | fuel + 1, pat, rep, c :: rest =>
    if startsWithCL pat (c :: rest) then
      rep ++ replaceL fuel pat rep ((c :: rest).drop pat.length)
    else
      c :: replaceL fuel pat rep rest

/-- Lines 89-92: `response.text.strip()`, then
`.replace('```json', '').replace('```', '').strip()`. -/
def stripFences (s : String) : List Char :=
  let c0 := trimL s.data
  let c1 := replaceL (c0.length + 1) "```json".data [] c0
  let c2 := replaceL (c1.length + 1) "```".data [] c1
  trimL c2

/-- JSON inter-token whitespace accepted by `json.loads`. -/
def jsonWs (c : Char) : Bool :=
  c == ' ' || c == '\t' || c == '\n' || c == '\r'

def skipWs (cs : List Char) : List Char := cs.dropWhile jsonWs

def escChar (e : Char) : Option Char :=
  if e == '"' then some '"'
  else if e == '\\' then some '\\'
  else if e == '/' then some '/'
  else if e == 'b' then some '\x08'
  else if e == 'f' then some '\x0c'
  else if e == 'n' then some '\n'
  else if e == 'r' then some '\r'
  else if e == 't' then some '\t'
  else none

def hexVal (c : Char) : Option Nat :=
  if c.isDigit then some (c.toNat - 48)
  else if 97 ≤ c.toNat ∧ c.toNat ≤ 102 then some (c.toNat - 87)
  else if 65 ≤ c.toNat ∧ c.toNat ≤ 70 then some (c.toNat - 55)
  else none

/-- Body of a JSON string literal, after the opening quote. -/
def parseStrBody : List Char → Option (List Char × List Char)
  | [] => none
  | '"' :: rest => some ([], rest)
  | '\\' :: 'u' :: a :: b :: c :: d :: rest =>
    match hexVal a, hexVal b, hexVal c, hexVal d with
    | some ha, some hb, some hc, some hd =>
      match parseStrBody rest with
      | some (s, r) => some (Char.ofNat (((ha * 16 + hb) * 16 + hc) * 16 + hd) :: s, r)
      | none => none
    | _, _, _, _ => none
  | '\\' :: e :: rest =>
    match escChar e with
    | some ec =>
      match parseStrBody rest with
      | some (s, r) => some (ec :: s, r)
      | none => none
    | none => none
  | c :: rest =>
    match parseStrBody rest with
    | some (s, r) => some (c :: s, r)
    | none => none

def digitsTake : List Char → List Char × List Char
  | [] => ([], [])
  | c :: rest =>
    if c.isDigit then
      let p := digitsTake rest
      (c :: p.1, p.2)
    else ([], c :: rest)

def natOfDigits (ds : List Char) : Nat :=
  ds.foldl (fun n c => n * 10 + (c.toNat - 48)) 0

def expTail (v : PyNum) (cs : List Char) : Option (PyNum × List Char) :=
  let sp : Bool × List Char :=
    match cs with
    | '-' :: r => (true, r)
    | '+' :: r => (false, r)
    | _ => (false, cs)
  let p := digitsTake sp.2
  if p.1 = [] then none
  else
    let k := natOfDigits p.1
    some (if sp.1 then ⟨v.mant, v.shift + k⟩ else ⟨v.mant * (10 : Int) ^ k, v.shift⟩, p.2)

def expApply (v : PyNum) (cs : List Char) : Option (PyNum × List Char) :=
  match cs with
  | 'e' :: rest => expTail v rest
  | 'E' :: rest => expTail v rest
  | _ => some (v, cs)

/-- A JSON number (`-?int frac? exp?`, leading zeros rejected).  A number
with fractional digits `fs` after integer digits `ds` denotes
`digits(ds ++ fs) · 10^(-|fs|)`. -/
def parseNum (cs : List Char) : Option (PyNum × List Char) :=
  let sp : Bool × List Char :=
    match cs with
    | '-' :: r => (true, r)
    | _ => (false, cs)
  let p := digitsTake sp.2
  if p.1 = [] then none
  else if 1 < p.1.length ∧ p.1.head? = some '0' then none
  else
    match p.2 with
    | '.' :: cs2 =>
      let q := digitsTake cs2
      if q.1 = [] then none
      else
        let m : Int := (natOfDigits (p.1 ++ q.1) : Nat)
        expApply ⟨if sp.1 then -m else m, q.1.length⟩ q.2
    | rest =>
      let m : Int := (natOfDigits p.1 : Nat)
      expApply ⟨if sp.1 then -m else m, 0⟩ rest

/-- Parsing mode: a plain value, the members of an object after at least one
member is required, or the items of an array after at least one item is
required.  The accumulators carry the members/items decoded so far. -/
inductive PMode where
  | pval : PMode
  | pobj : List (String × PyVal) → PMode
  | parr : List PyVal → PMode

/-- One recursive-descent decoder for JSON values; fuel bounds the recursion
(`jsonLoadsL` supplies more fuel than any input can consume, so running out
of fuel is unreachable and conservatively decodes to failure). -/
def parseStep : Nat → PMode → List Char → Option (PyVal × List Char)
  | 0, _, _ => none
  | Nat.succ fuel, PMode.pval, cs =>
    match skipWs cs with
    | [] => none
    | c :: rest =>
      if c == '"' then
        match parseStrBody rest with
        | some (s, r) => some (PyVal.vstr (String.mk s), r)
        | none => none
      else if c == '\x7b' then
        match skipWs rest with
        | '\x7d' :: r2 => some (PyVal.vdict [], r2)
        | _ => parseStep fuel (PMode.pobj []) rest
      else if c == '[' then
        match skipWs rest with
        | ']' :: r2 => some (PyVal.vlist [], r2)
        | _ => parseStep fuel (PMode.parr []) rest
      else if startsWithCL "true".data (c :: rest) then
        some (PyVal.vbool true, (c :: rest).drop 4)
      else if startsWithCL "false".data (c :: rest) then
        some (PyVal.vbool false, (c :: rest).drop 5)
      else if startsWithCL "null".data (c :: rest) then
        some (PyVal.vnull, (c :: rest).drop 4)
      else
        match parseNum (c :: rest) with
        | some (q, r) => some (PyVal.vnum q, r)
        | none => none
  | Nat.succ fuel, PMode.pobj acc, cs =>
    match skipWs cs with
    | '"' :: r1 =>
      match parseStrBody r1 with
      | some (k, r2) =>
        match skipWs r2 with
        | ':' :: r3 =>
          match parseStep fuel PMode.pval r3 with
          | some (v, r4) =>
            match skipWs r4 with
            | ',' :: r5 => parseStep fuel (PMode.pobj (acc ++ [(String.mk k, v)])) r5
            | '\x7d' :: r5 => some (PyVal.vdict (acc ++ [(String.mk k, v)]), r5)
            | _ => none
          | none => none
        | _ => none
      | none => none
    | _ => none
  | Nat.succ fuel, PMode.parr acc, cs =>
    match parseStep fuel PMode.pval cs with
    | some (v, r1) =>
      match skipWs r1 with
      | ',' :: r2 => parseStep fuel (PMode.parr (acc ++ [v])) r2
      | ']' :: r2 => some (PyVal.vlist (acc ++ [v]), r2)
      | _ => none
    | none => none

/-- `json.loads` (lines 95-96 and 110): decode one JSON value, requiring
only whitespace after it. -/
def jsonLoadsL (cs : List Char) : Option PyVal :=
  match parseStep (2 * cs.length + 4) PMode.pval cs with
  | some (v, rest) =>
    match skipWs rest with
    | [] => some v
    | _ => none
  | none => none

/-- The tier-2 pattern `re.search(r'\x7b.*\x7d', json_str, re.DOTALL)`
(lines 104-109): with a greedy dot-matches-all `.*`, the match runs from
the first `\x7b` to the last `\x7d`, provided the latter comes later. -/
def braceSub (cs : List Char) : Option (List Char) :=
  match cs.findIdx? (fun c => c == '\x7b'), cs.reverse.findIdx? (fun c => c == '\x7d') with
  | some i, some jr =>
    let j := cs.length - 1 - jr
    if i < j then some ((cs.drop i).take (j - i + 1)) else none
  | _, _ => none

/-- Regex `\s`. -/
def reWs (c : Char) : Bool := pyWs c

/-- Matches `"key"\s*:\s*` anchored at `cs`; returns the remainder at the
start of the value pattern. -/
def afterKeyColon (key : List Char) (cs : List Char) : Option (List Char) :=
  let pat := '"' :: (key ++ ['"'])
  if startsWithCL pat cs then
    match (cs.drop pat.length).dropWhile reWs with
    | ':' :: r2 => some (r2.dropWhile reWs)
    | _ => none
  else none

/-- The capture `"([^"]+)"` anchored at `cs`. -/
def strCapture (cs : List Char) : Option (List Char) :=
  match cs with
  | '"' :: rest =>
    let cap := rest.takeWhile (fun c => !(c == '"'))
    let r := rest.dropWhile (fun c => !(c == '"'))
    if cap = [] then none
    else
      match r with
      | '"' :: _ => some cap
      | _ => none
  | _ => none

/-- `re.search(r'"key"\s*:\s*"([^"]+)"', js)` (lines 114 and 116): the
leftmost position where the whole pattern matches. -/
def findStrField (key : List Char) : List Char → Option (List Char)
  | [] => none
  | c :: rest =>
    match afterKeyColon key (c :: rest) with
    | some r =>
      match strCapture r with
      | some cap => some cap
      | none => findStrField key rest
    | none => findStrField key rest

def decOfParts (neg : Bool) (ds fs : List Char) : PyNum :=
  let m : Int := (natOfDigits (ds ++ fs) : Nat)
  ⟨if neg then -m else m, fs.length⟩

/-- The alternation `([-+]?\d*\.\d+|\d+)` anchored at `cs`, converted by
`float(...)`: the first alternative needs a decimal point; the second is an
unsigned integer at the same position. -/
def scoreNumAt (cs : List Char) : Option PyNum :=
  let sp : Bool × Bool × List Char :=
    match cs with
    | '-' :: r => (true, true, r)
    | '+' :: r => (false, true, r)
    | _ => (false, false, cs)
  let p := digitsTake sp.2.2
  match p.2 with
  | '.' :: cs2 =>
    let q := digitsTake cs2
    if q.1 = [] then
      if sp.2.1 then none
      else if p.1 = [] then none
      else some ⟨(natOfDigits p.1 : Nat), 0⟩
    else some (decOfParts sp.1 p.1 q.1)
  | _ =>
    if sp.2.1 then none
    else if p.1 = [] then none
    else some ⟨(natOfDigits p.1 : Nat), 0⟩

/-- `re.search(r'"score"\s*:\s*([-+]?\d*\.\d+|\d+)', js)` (line 115). -/
def findScoreField : List Char → Option PyNum
  | [] => none
  | c :: rest =>
    match afterKeyColon "score".data (c :: rest) with
    | some r =>
      match scoreNumAt r with
      | some q => some q
      | none => findScoreField rest
    | none => findScoreField rest

/-- Tier 3, lines 113-127: rebuild the dict by independent field-level
pattern extraction with the documented per-field defaults. -/
def manualDict (js : List Char) : List (String × PyVal) :=
  [("sentiment", PyVal.vstr (match findStrField "sentiment".data js with
      | some cap => String.mk cap
      | none => "neutro")),
   ("score", PyVal.vnum (match findScoreField js with
      | some q => q
      | none => ⟨0, 0⟩)),
   ("explanation", PyVal.vstr (match findStrField "explanation".data js with
      | some cap => String.mk cap
      | none => "Não foi possível extrair explicação"))]

def toLowerL (cs : List Char) : List Char := cs.map Char.toLower

def keywordExplanation : String :=
  "Análise baseada em texto não estruturado devido a erro de formatação JSON"

/-- Terminal keyword-sniffing tier, lines 128-145: look for `positivo`,
then `negativo`, in the lowercased raw text. -/
def keywordDict (js : List Char) : List (String × PyVal) :=
  if containsCL "positivo".data (toLowerL js) then
    [("sentiment", PyVal.vstr "positivo"), ("score", PyVal.vnum ⟨7, 1⟩),
     ("explanation", PyVal.vstr keywordExplanation)]
  else if containsCL "negativo".data (toLowerL js) then
    [("sentiment", PyVal.vstr "negativo"), ("score", PyVal.vnum ⟨-7, 1⟩),
     ("explanation", PyVal.vstr keywordExplanation)]
  else
    [("sentiment", PyVal.vstr "neutro"), ("score", PyVal.vnum ⟨0, 0⟩),
     ("explanation", PyVal.vstr keywordExplanation)]

/-- The strict decodes of tiers 1 and 2 only (used to localize where a
non-numeric score can come from). -/
def tier12 (js : List Char) : Option PyVal :=
  match jsonLoadsL js with
  | some v => some v
  | none =>
    match braceSub js with
    | some sub => jsonLoadsL sub
    | none => none

/-- The full three-tier fallback of lines 94-145, producing the Python
value bound to `result`. -/
def parsePipeline (js : List Char) : PyVal :=
  match jsonLoadsL js with
  | some v => v
  | none =>
    match braceSub js with
    | some sub =>
      match jsonLoadsL sub with
      | some v => v
      | none => PyVal.vdict (manualDict js)
    | none => PyVal.vdict (keywordDict js)

/-- Python `dict` lookup for an insertion-ordered association list where a
later binding of the same key overrides an earlier one. -/
def dictGet : List (String × PyVal) → String → Option PyVal
  | [], _ => none
  | (k', v) :: rest, k =>
    match dictGet rest k with
    | some v2 => some v2
    | none => if k' = k then some v else none

def hasKey (d : List (String × PyVal)) (k : String) : Bool :=
  (dictGet d k).isSome

/-- Line 153-154: add the `sentiment` key with its default when missing. -/
def fillSentiment (d : List (String × PyVal)) : List (String × PyVal) :=
  if hasKey d "sentiment" then d else d ++ [("sentiment", PyVal.vstr "neutro")]

/-- Line 155-156: add the `score` key with its default when missing. -/
def fillScore (d : List (String × PyVal)) : List (String × PyVal) :=
  if hasKey d "score" then d else d ++ [("score", PyVal.vnum ⟨0, 0⟩)]

/-- Line 157-158: add the `explanation` key with its default when missing. -/
def fillExplanation (d : List (String × PyVal)) : List (String × PyVal) :=
  if hasKey d "explanation" then d
  else d ++ [("explanation", PyVal.vstr "Não foi fornecida explicação")]

/-- Lines 147-158: add each of the three expected keys with its documented
default when missing. -/
def fillDefaults (d : List (String × PyVal)) : List (String × PyVal) :=
  fillExplanation (fillScore (fillSentiment d))

/-- `str.lower()` (ASCII lowercasing, which is what it does on every label
the normalization compares against). -/
def lowerStr (s : String) : String := String.mk (toLowerL s.data)

/-- Lines 160-166: canonicalize the sentiment label case-insensitively. -/
def normalizeSent (s : String) : String :=
  if lowerStr s = "positivo" ∨ lowerStr s = "positive" then "positivo"
  else if lowerStr s = "negativo" ∨ lowerStr s = "negative" then "negativo"
  else "neutro"

/-- The analysis record returned by `analyze_sentiment`.  The Python code
guarantees `sentiment` is a string, but `score` and `explanation` are
whatever Python values the decode produced. -/
structure SentimentResult where
  sentiment : String
  score : PyVal
  explanation : PyVal

/-- The error record of lines 172-176. -/
def erroRecord (e : String) : SentimentResult :=
  ⟨"erro", PyVal.vnum ⟨0, 0⟩, PyVal.vstr ("Erro na análise: " ++ e)⟩

/-- Lines 88-168: process a successfully returned model text.  An
`Except.error` models an exception escaping to the handler of line 170:
this happens when the decoded `result` is not a dict (the membership test
of line 148 or the indexing of lines 153-161 raises `TypeError`), or when
its `sentiment` value is not a string (`.lower()` raises
`AttributeError`).  The carried messages abbreviate Python's. -/
def processResponse (raw : String) : Except String SentimentResult :=
  match parsePipeline (stripFences raw) with
  | PyVal.vdict d0 =>
    match dictGet (fillDefaults d0) "sentiment" with
    | some (PyVal.vstr s) =>
      Except.ok ⟨normalizeSent s,
        (dictGet (fillDefaults d0) "score").getD (PyVal.vnum ⟨0, 0⟩),
        (dictGet (fillDefaults d0) "explanation").getD (PyVal.vstr "")⟩
    | _ => Except.error "AttributeError: resultado sem atributo lower"
  | _ => Except.error "TypeError: resultado decodificado nao e um dicionario"

/-- The record `analyze_sentiment` returns for a given model-call outcome:
call-level failures and parse-path exceptions are both caught at line 170
and yield the error record. -/
def responseResult (o : Except String String) : SentimentResult :=
  match o with
  | Except.ok raw =>
    match processResponse raw with
    | Except.ok r => r
    | Except.error e => erroRecord e
  | Except.error e => erroRecord e

/-- `analyze_sentiment` (lines 29-176) restricted to its observable
state and result: applies rate limiting, records the dispatch timestamp
(line 85, before the `generate_content` call), and returns the analysis
record.  The timestamp append happens inside the `try`, so it survives a
failing model call. -/
def analyze_sentiment (quota : Nat) (now : Int) (ts : List Int)
    (callOutcome : Except String String) : List Int × SentimentResult :=
  let p := apply_rate_limiting quota now ts
  let ts2 := dequeAppend quota p.1 p.2
  (ts2, responseResult callOutcome)

/-- `batch_analyze` (lines 210-263): sequentially analyze each comment,
threading the limiter state; each item supplies the wall-clock instant of
its call and its model-call outcome. -/
def batch_analyze (quota : Nat) :
    List (Int × Except String String) → List Int → List Int × List SentimentResult
  | [], ts => (ts, [])
  | (now, o) :: rest, ts =>
    let p := analyze_sentiment quota now ts o
    let q := batch_analyze quota rest p.1
    (q.1, p.2 :: q.2)

/-! ## Lemmas about the parse pipeline -/

def sentimentSet : List String := ["positivo", "negativo", "neutro", "erro"]

theorem dictGet_append (d : List (String × PyVal)) (k k' : String) (v : PyVal) :
    dictGet (d ++ [(k', v)]) k = if k' = k then some v else dictGet d k := by
  induction d with
  | nil => simp [dictGet]
  | cons a rest ih =>
    obtain ⟨ka, va⟩ := a
    simp only [List.cons_append, dictGet, List.append_eq]
    rw [ih]
    by_cases hk : k' = k
    · simp [hk]
    · simp [hk]

theorem hasKey_append_ne (d : List (String × PyVal)) (k k' : String) (v : PyVal)
    (h : k' ≠ k) : hasKey (d ++ [(k', v)]) k = hasKey d k := by
  unfold hasKey
  rw [dictGet_append, if_neg h]

theorem dictGet_fillSentiment_score (d : List (String × PyVal)) :
    dictGet (fillSentiment d) "score" = dictGet d "score" := by
  unfold fillSentiment
  split
  · rfl
  · rw [dictGet_append, if_neg (by decide)]

theorem dictGet_fillExplanation_score (d : List (String × PyVal)) :
    dictGet (fillExplanation d) "score" = dictGet d "score" := by
  unfold fillExplanation
  split
  · rfl
  · rw [dictGet_append, if_neg (by decide)]

theorem hasKey_fillSentiment_score (d : List (String × PyVal)) :
    hasKey (fillSentiment d) "score" = hasKey d "score" := by
  unfold hasKey
  rw [dictGet_fillSentiment_score]

theorem dictGet_fillScore (d : List (String × PyVal)) :
    dictGet (fillScore d) "score" =
      if hasKey d "score" then dictGet d "score" else some (PyVal.vnum ⟨0, 0⟩) := by
  unfold fillScore
  split
  · rfl
  · rw [dictGet_append, if_pos rfl]

theorem fillDefaults_score (d : List (String × PyVal)) :
    dictGet (fillDefaults d) "score" =
      if hasKey d "score" then dictGet d "score" else some (PyVal.vnum ⟨0, 0⟩) := by
  unfold fillDefaults
  rw [dictGet_fillExplanation_score, dictGet_fillScore, hasKey_fillSentiment_score,
    dictGet_fillSentiment_score]

theorem manualDict_score (js : List Char) :
    dictGet (manualDict js) "score" =
      some (PyVal.vnum (match findScoreField js with | some q => q | none => ⟨0, 0⟩)) := by
  simp [manualDict, dictGet]

theorem keywordDict_score (js : List Char) :
    ∃ q, dictGet (keywordDict js) "score" = some (PyVal.vnum q) := by
  unfold keywordDict
  split
  · exact ⟨⟨7, 1⟩, by simp [dictGet]⟩
  · split
    · exact ⟨⟨-7, 1⟩, by simp [dictGet]⟩
    · exact ⟨⟨0, 0⟩, by simp [dictGet]⟩

theorem normalizeSent_mem (s : String) :
    normalizeSent s = "positivo" ∨ normalizeSent s = "negativo" ∨ normalizeSent s = "neutro" := by
  unfold normalizeSent
  split
  · exact Or.inl rfl
  · split
    · exact Or.inr (Or.inl rfl)
    · exact Or.inr (Or.inr rfl)

theorem processResponse_ok_shape (raw : String) (r : SentimentResult)
    (h : processResponse raw = Except.ok r) :
    ∃ d s, parsePipeline (stripFences raw) = PyVal.vdict d ∧
      dictGet (fillDefaults d) "sentiment" = some (PyVal.vstr s) ∧
      r = ⟨normalizeSent s,
        (dictGet (fillDefaults d) "score").getD (PyVal.vnum ⟨0, 0⟩),
        (dictGet (fillDefaults d) "explanation").getD (PyVal.vstr "")⟩ := by
  unfold processResponse at h
  split at h
  · rename_i d0 heq
    split at h
    · rename_i s hs
      cases h
      exact ⟨d0, s, heq, hs, rfl⟩
    · cases h
  · cases h

theorem responseResult_sentiment_mem (o : Except String String) :
    (responseResult o).sentiment ∈ sentimentSet := by
  cases o with
  | error e => simp [responseResult, erroRecord, sentimentSet]
  | ok raw =>
    cases hp : processResponse raw with
    | error e => simp [responseResult, hp, erroRecord, sentimentSet]
    | ok r =>
      obtain ⟨d, s, _hd, _hs, hr⟩ := processResponse_ok_shape raw r hp
      have hrr : responseResult (Except.ok raw) = r := by simp [responseResult, hp]
      rw [hrr, hr]
      rcases normalizeSent_mem s with h | h | h <;> simp [sentimentSet, h]

theorem parsePipeline_tier12 (js : List Char) :
    (∀ v, tier12 js = some v → parsePipeline js = v) ∧
    (tier12 js = none →
      parsePipeline js = PyVal.vdict (manualDict js) ∨
      parsePipeline js = PyVal.vdict (keywordDict js)) := by
  constructor
  · intro v hv
    unfold tier12 at hv
    unfold parsePipeline
    cases h1 : jsonLoadsL js with
    | some v1 => rw [h1] at hv; cases hv; rfl
    | none =>
      rw [h1] at hv
      dsimp only at hv ⊢
      cases h2 : braceSub js with
      | some sub =>
        rw [h2] at hv
        dsimp only at hv ⊢
        rw [hv]
      | none =>
        rw [h2] at hv
        simp at hv
  · intro hn
    unfold tier12 at hn
    unfold parsePipeline
    cases h1 : jsonLoadsL js with
    | some v1 => rw [h1] at hn; simp at hn
    | none =>
      rw [h1] at hn
      dsimp only at hn ⊢
      cases h2 : braceSub js with
      | some sub =>
        rw [h2] at hn
        dsimp only at hn ⊢
        rw [hn]
        exact Or.inl rfl
      | none =>
        exact Or.inr rfl

theorem responseResult_score_source (raw : String)
    (h : pvIsNum (responseResult (Except.ok raw)).score = false) :
    ∃ d, tier12 (stripFences raw) = some (PyVal.vdict d) ∧
      dictGet d "score" = some (responseResult (Except.ok raw)).score := by
  cases hp : processResponse raw with
  | error e =>
    have hrr : responseResult (Except.ok raw) = erroRecord e := by simp [responseResult, hp]
    rw [hrr] at h
    simp [erroRecord, pvIsNum] at h
  | ok r =>
    have hrr : responseResult (Except.ok raw) = r := by simp [responseResult, hp]
    rw [hrr] at h ⊢
    obtain ⟨d, s, hd, _hs, hr⟩ := processResponse_ok_shape raw r hp
    have hscore : r.score = (dictGet (fillDefaults d) "score").getD (PyVal.vnum ⟨0, 0⟩) := by
      rw [hr]
    cases ht : tier12 (stripFences raw) with
    | some v =>
      have hv : parsePipeline (stripFences raw) = v :=
        (parsePipeline_tier12 (stripFences raw)).1 v ht
      rw [hd] at hv
      subst hv
      refine ⟨d, rfl, ?_⟩
      cases hk : hasKey d "score" with
      | true =>
        cases hg : dictGet d "score" with
        | none => simp [hasKey, hg] at hk
        | some val =>
          rw [fillDefaults_score] at hscore
          simp [hk, hg] at hscore
          rw [hscore]
      | false =>
        rw [fillDefaults_score] at hscore
        simp [hk] at hscore
        rw [hscore] at h
        simp [pvIsNum] at h
    | none =>
      rcases (parsePipeline_tier12 (stripFences raw)).2 ht with hm | hm <;> rw [hd] at hm
      · have hdm : d = manualDict (stripFences raw) := by injection hm
        rw [hdm, fillDefaults_score] at hscore
        simp [hasKey, manualDict_score] at hscore
        rw [hscore] at h
        simp [pvIsNum] at h
      · have hdm : d = keywordDict (stripFences raw) := by injection hm
        obtain ⟨q, hq⟩ := keywordDict_score (stripFences raw)
        rw [hdm, fillDefaults_score] at hscore
        simp [hasKey, hq] at hscore
        rw [hscore] at h
        simp [pvIsNum] at h

theorem startsWithCL_self : ∀ n : List Char, startsWithCL n n = true := by
  intro n
  induction n with
  | nil => rfl
  | cons a as ih => simp [startsWithCL, ih]

theorem containsCL_append_self (pre n : List Char) : containsCL n (pre ++ n) = true := by
  induction pre with
  | nil =>
    cases n with
    | nil => rfl
    | cons c r => simp [containsCL, startsWithCL_self]
  | cons p ps ih => simp [containsCL, ih]

theorem strContains_append_self (pre e : String) : strContains (pre ++ e) e = true := by
  unfold strContains
  rw [String.data_append]
  exact containsCL_append_self pre.data e.data

theorem batch_analyze_results (quota : Nat) :
    ∀ (items : List (Int × Except String String)) (ts : List Int),
      (batch_analyze quota items ts).2 = items.map (fun x => responseResult x.2) := by
  intro items
  induction items with
  | nil => intro ts; rfl
  | cons a rest ih =>
    intro ts
    obtain ⟨now, o⟩ := a
    simp [batch_analyze, analyze_sentiment, ih]

theorem mem_dequeAppend_self (cap : Nat) (x : Int) (ts : List Int) :
    x ∈ dequeAppend cap x ts := by
  unfold dequeAppend
  split <;> simp

/-- C2 (amended): for every raw model text, the classification parse path
never raises (it totalizes into a record), the `sentiment` field is one of
exactly `positivo`/`negativo`/`neutro`/`erro`, and the `score` field is
numeric unless the strict decode of tier 1 or tier 2 produced an object
whose own `score` entry is non-numeric, in which case that entry is passed
through unchanged. -/
theorem parse_total_sentiment_enum (raw : String) :
    (responseResult (Except.ok raw)).sentiment ∈ sentimentSet ∧
    (pvIsNum (responseResult (Except.ok raw)).score = false →
      ∃ d, tier12 (stripFences raw) = some (PyVal.vdict d) ∧
        dictGet d "score" = some (responseResult (Except.ok raw)).score) :=
  ⟨responseResult_sentiment_mem _, responseResult_score_source raw⟩

theorem parse_total_sentiment_enum_witness :
    (responseResult (Except.ok
      "\x7b\"sentiment\":\"positivo\",\"score\":\"alto\",\"explanation\":\"x\"\x7d")).sentiment
        ∈ sentimentSet ∧
    ∃ d, tier12 (stripFences
        "\x7b\"sentiment\":\"positivo\",\"score\":\"alto\",\"explanation\":\"x\"\x7d") =
          some (PyVal.vdict d) ∧
      dictGet d "score" = some (responseResult (Except.ok
        "\x7b\"sentiment\":\"positivo\",\"score\":\"alto\",\"explanation\":\"x\"\x7d")).score :=
  ⟨(parse_total_sentiment_enum
      "\x7b\"sentiment\":\"positivo\",\"score\":\"alto\",\"explanation\":\"x\"\x7d").1,
   (parse_total_sentiment_enum
      "\x7b\"sentiment\":\"positivo\",\"score\":\"alto\",\"explanation\":\"x\"\x7d").2 rfl⟩

/-- C2 (counterexample): on the model text
`{"sentiment":"positivo","score":"alto","explanation":"x"}` the parse path
succeeds without any error, yet the returned `score` is the non-numeric
string `alto` — refuting the claim that the score field is always
numeric. -/
theorem parse_nonnumeric_score_counterexample :
    processResponse "\x7b\"sentiment\":\"positivo\",\"score\":\"alto\",\"explanation\":\"x\"\x7d" =
      Except.ok ⟨"positivo", PyVal.vstr "alto", PyVal.vstr "x"⟩ ∧
    pvIsNum (responseResult (Except.ok
      "\x7b\"sentiment\":\"positivo\",\"score\":\"alto\",\"explanation\":\"x\"\x7d")).score
      = false :=
  ⟨rfl, rfl⟩

/-- C5: parsing the canonical structured-output text (the code's canonical
label is `positivo`; the spec's English rendering `positive` normalizes to
the same enum value) yields exactly the record
`(positivo, 0.8, "x")` — the strict tier-1 decode followed by
normalization is the identity on canonical output.  `PyNum ⟨8, 1⟩` denotes
`8·10⁻¹ = 0.8`. -/
theorem canonical_roundtrip_identity :
    responseResult (Except.ok
        "\x7b\"sentiment\":\"positivo\",\"score\":0.8,\"explanation\":\"x\"\x7d") =
      ⟨"positivo", PyVal.vnum ⟨8, 1⟩, PyVal.vstr "x"⟩ ∧
    responseResult (Except.ok
        "\x7b\"sentiment\":\"positive\",\"score\":0.8,\"explanation\":\"x\"\x7d") =
      ⟨"positivo", PyVal.vnum ⟨8, 1⟩, PyVal.vstr "x"⟩ ∧
    PyNum.toRat ⟨8, 1⟩ = 0.8 :=
  ⟨rfl, rfl, by norm_num [PyNum.toRat]⟩

/-- C6: on a malformed response with no brace-delimited substring the
terminal keyword tier yields `positivo` with the default score `0.7`,
symmetrically `negativo` with `-0.7`, else `neutro` with `0.0`. -/
theorem keyword_fallback_defaults :
    responseResult (Except.ok "Resultado: positivo, sem JSON valido") =
      ⟨"positivo", PyVal.vnum ⟨7, 1⟩, PyVal.vstr keywordExplanation⟩ ∧
    responseResult (Except.ok "Resultado: negativo, sem JSON valido") =
      ⟨"negativo", PyVal.vnum ⟨-7, 1⟩, PyVal.vstr keywordExplanation⟩ ∧
    responseResult (Except.ok "Resultado: indefinido, sem JSON valido") =
      ⟨"neutro", PyVal.vnum ⟨0, 0⟩, PyVal.vstr keywordExplanation⟩ ∧
    PyNum.toRat ⟨7, 1⟩ = 0.7 ∧ PyNum.toRat ⟨-7, 1⟩ = -0.7 :=
  ⟨rfl, rfl, rfl, by norm_num [PyNum.toRat], by norm_num [PyNum.toRat]⟩

/-- C7: whenever the parse path returns a record, its sentiment is the
case-insensitive canonicalization of the tier's label to exactly one of
`positivo`/`negativo`/`neutro`; normalization depends only on the
lowercased label, and any label that is none of the four recognized
variants collapses to `neutro` — never an arbitrary string. -/
theorem sentiment_normalization_canonical :
    (∀ raw r, processResponse raw = Except.ok r →
      (r.sentiment = "positivo" ∨ r.sentiment = "negativo" ∨ r.sentiment = "neutro") ∧
      ∃ s, r.sentiment = normalizeSent s) ∧
    (∀ s t : String, lowerStr s = lowerStr t → normalizeSent s = normalizeSent t) ∧
    (∀ s : String, lowerStr s ≠ "positivo" → lowerStr s ≠ "positive" →
      lowerStr s ≠ "negativo" → lowerStr s ≠ "negative" → normalizeSent s = "neutro") := by
  refine ⟨?_, ?_, ?_⟩
  · intro raw r hok
    obtain ⟨d, s, _hd, _hs, hr⟩ := processResponse_ok_shape raw r hok
    subst hr
    exact ⟨normalizeSent_mem s, s, rfl⟩
  · intro s t hst
    unfold normalizeSent
    rw [hst]
  · intro s h1 h2 h3 h4
    unfold normalizeSent
    rw [if_neg (by simp [h1, h2]), if_neg (by simp [h3, h4])]

theorem sentiment_normalization_canonical_witness :
    ((("positivo" : String) = "positivo" ∨ ("positivo" : String) = "negativo" ∨
        ("positivo" : String) = "neutro") ∧
      ∃ s, ("positivo" : String) = normalizeSent s) ∧
    normalizeSent "misto" = "neutro" :=
  ⟨sentiment_normalization_canonical.1
      "\x7b\"sentiment\":\"POSITIVE\",\"score\":1,\"explanation\":\"e\"\x7d"
      ⟨"positivo", PyVal.vnum ⟨1, 0⟩, PyVal.vstr "e"⟩ rfl,
   sentiment_normalization_canonical.2.2 "misto"
      (by decide) (by decide) (by decide) (by decide)⟩

/-- C8: a call-level failure of the model invocation yields the record
`(erro, 0, "Erro na análise: " ++ detail)` whose explanation contains the
failure detail, and `batch_analyze` never aborts: it produces exactly one
record per input item, each depending only on that item's own outcome. -/
theorem classification_error_local_recovery (quota : Nat) :
    (∀ e, responseResult (Except.error e) = erroRecord e) ∧
    (∀ e, (erroRecord e).sentiment = "erro" ∧ (erroRecord e).score = PyVal.vnum ⟨0, 0⟩ ∧
      (erroRecord e).explanation = PyVal.vstr ("Erro na análise: " ++ e) ∧
      strContains ("Erro na análise: " ++ e) e = true) ∧
    (∀ items ts, (batch_analyze quota items ts).2 =
      items.map (fun x => responseResult x.2)) ∧
    (∀ items ts, ((batch_analyze quota items ts).2).length = items.length) := by
  refine ⟨fun e => rfl,
    fun e => ⟨rfl, rfl, rfl, strContains_append_self "Erro na análise: " e⟩,
    batch_analyze_results quota, ?_⟩
  intro items ts
  rw [batch_analyze_results quota items ts, List.length_map]

/-- C10: the dispatch timestamp is recorded into the shared window before
the model call outcome is examined: the post-call limiter state is
identical for every outcome, and a failing call (which returns the error
record) still leaves its timestamp in the deque. -/
theorem timestamp_recorded_despite_failure (quota : Nat) (now : Int) (ts : List Int) :
    (∀ o₁ o₂ : Except String String,
      (analyze_sentiment quota now ts o₁).1 = (analyze_sentiment quota now ts o₂).1) ∧
    (∀ e, (analyze_sentiment quota now ts (Except.error e)).1 =
        dequeAppend quota (apply_rate_limiting quota now ts).1
          (apply_rate_limiting quota now ts).2 ∧
      (apply_rate_limiting quota now ts).1 ∈
        (analyze_sentiment quota now ts (Except.error e)).1 ∧
      (analyze_sentiment quota now ts (Except.error e)).2 = erroRecord e) :=
  ⟨fun _ _ => rfl, fun _ => ⟨rfl, mem_dequeAppend_self quota _ _, rfl⟩⟩

/-! ## The comment extractor (`YouTubeCommentExtractor.get_comments`, lines 80-337)

The YouTube Data API is an input: a record of request functions returning
`Except`-valued responses (`Except.error` is an `HttpError`; a missing key
in a response dict is an `Option` that is `none`).  `get_comments` is
modelled from the point where the video id has been resolved (claims about
URL resolution are out of scope here).  Results carry, besides the comment
list and the report, the number of paging requests issued
(`commentThreads().list`, `comments().list` and `search().list` calls; the
initial `videos().list` availability check is not counted).  When an
`HttpError` propagates, the Python code appends a reason to its local
`extraction_info` and re-raises, so the caller observes only the
exception; this is modelled as `Except.error`. -/

/-- The snippet dict of a top-level comment or of a reply; each field is
read with `.get`/key test, so each is optional. -/
structure TopSnippet where
  authorDisplayName : Option String
  textDisplay : Option String
  likeCount : Option Nat
  publishedAt : Option String

/-- One item of a `commentThreads().list` response.  `top = none` models a
`KeyError` when reading `item['snippet']['topLevelComment']['snippet']`
(the whole item is skipped, line 242). -/
structure ThreadItem where
  id : String
  top : Option TopSnippet
  totalReplyCount : Nat

/-- One item of a `comments().list` (replies) response; `snippet = none`
models a `KeyError` (the reply is skipped, line 237). -/
structure ReplyItem where
  snippet : Option TopSnippet

/-- A `commentThreads().list` response page; a response with no `items`
key is a page with `items = []` (the code treats both alike, line 177). -/
structure Page where
  items : List ThreadItem
  nextPageToken : Option String

/-- One item of a `search().list` response. -/
structure SearchItem where
  idKind : String
  idVideoId : Option String
  channelTitle : Option String
  description : Option String
  publishedAt : Option String

/-- The first item of the `videos().list(part='statistics')` response:
`commentCount` may be absent from the statistics, and `channelId` (read
from `['snippet']['channelId']` only by the fallback) may be absent. -/
structure VideoStatsItem where
  commentCount : Option Nat
  channelId : Option String

/-- The upstream service: availability check, `commentThreads().list` with
the full parameter set (line 153) and with the basic set (line 166),
`comments().list` for replies (line 208), `search().list` (line 276). -/
structure YTService where
  videoStats : Except String (Option VideoStatsItem)
  threadsFull : Option String → Nat → Except String Page
  threadsBasic : Option String → Nat → Except String Page
  repliesList : String → Nat → Except String (List ReplyItem)
  searchList : Nat → Except String (List SearchItem)

/-- One extracted comment record (the dicts appended at lines 193, 225 and
298). -/
structure YComment where
  author : String
  text : String
  likes : Nat
  publishedAt : String
  ctype : String
  parentAuthor : Option String

/-- The `extraction_info` dict (lines 101-106). -/
structure ExtractionInfo where
  requested : Nat
  extracted : Nat
  available : Nat
  reasons : List String

/-- Lines 186-199: emit the main comment of a thread, skipping it when
`textDisplay` is missing or empty after strip. -/
def emitMain (snip : TopSnippet) : Option YComment :=
  match snip.textDisplay with
  | none => none
  | some t =>
    if trimL t.data = [] then none
    else some ⟨snip.authorDisplayName.getD "Anônimo", t, snip.likeCount.getD 0,
      snip.publishedAt.getD "", "principal", none⟩

/-- Lines 217-232: emit one reply, skipping it on a missing snippet or a
missing/empty `textDisplay`. -/
def emitReply (parentAuthor : String) (r : ReplyItem) : Option YComment :=
  match r.snippet with
  | none => none
  | some rs =>
    match rs.textDisplay with
    | none => none
    | some t =>
      if trimL t.data = [] then none
      else some ⟨rs.authorDisplayName.getD "Anônimo", t, rs.likeCount.getD 0,
        rs.publishedAt.getD "", "resposta", some parentAuthor⟩

/-- Lines 216-239: append each valid reply, breaking as soon as the budget
is reached (the break of lines 234-236 fires after an append). -/
def addReplies (maxC : Nat) (parentAuthor : String) :
    List ReplyItem → List YComment → List YComment
  | [], acc => acc
  | r :: rest, acc =>
    match emitReply parentAuthor r with
    | none => addReplies maxC parentAuthor rest acc
    | some c =>
      if maxC ≤ (acc ++ [c]).length then acc ++ [c]
      else addReplies maxC parentAuthor rest (acc ++ [c])

/-- Lines 204-241: fetch and append the replies of one thread when
configured to, guarded by `totalReplyCount > 0` and the remaining budget;
an `HttpError` on the replies call is caught and only logged (line 240). -/
def processReplies (svc : YTService) (maxC : Nat) (item : ThreadItem)
    (parentAuthor : String) (acc : List YComment) (calls : Nat) :
    List YComment × Nat :=
  if 0 < item.totalReplyCount ∧ acc.length < maxC then
    match svc.repliesList item.id (min 100 (maxC - acc.length)) with
    | Except.error _ => (acc, calls + 1)
    | Except.ok rs => (addReplies maxC parentAuthor rs acc, calls + 1)
  else (acc, calls)

/-- Lines 183-244: process one thread item.  With `extract_main` set, an
invalid main comment `continue`s past the replies too (line 191); the main
comment itself is appended without any budget check. -/
def processItem (svc : YTService) (maxC : Nat) (eM eR : Bool) (item : ThreadItem)
    (acc : List YComment) (calls : Nat) : List YComment × Nat :=
  match item.top with
  | none => (acc, calls)
  | some snip =>
    if eM then
      match emitMain snip with
      | none => (acc, calls)
      | some c =>
        if eR then
          processReplies svc maxC item (snip.authorDisplayName.getD "Anônimo")
            (acc ++ [c]) calls
        else (acc ++ [c], calls)
    else
      if eR then
        processReplies svc maxC item (snip.authorDisplayName.getD "Anônimo") acc calls
      else (acc, calls)

/-- The `for item in response['items']` loop of line 183. -/
def processItems (svc : YTService) (maxC : Nat) (eM eR : Bool) :
    List ThreadItem → List YComment → Nat → List YComment × Nat
  | [], acc, calls => (acc, calls)
  | it :: rest, acc, calls =>
    match processItem svc maxC eM eR it acc calls with
    | (acc2, calls2) => processItems svc maxC eM eR rest acc2 calls2

/-- Lines 152-174: one page request with the full parameter set; on an
`HttpError` mentioning `moderationStatus`, exactly one automatic retry
with the basic parameter set; any other error, or a failure of the retry
itself, is raised.  The returned count is the number of upstream calls
made (2 when the retry ran). -/
def requestPage (svc : YTService) (token : Option String) (maxr : Nat) :
    Except String (Page × Nat) :=
  match svc.threadsFull token maxr with
  | Except.ok p => Except.ok (p, 1)
  | Except.error e =>
    if strContains e "moderationStatus" then
      match svc.threadsBasic token maxr with
      | Except.ok p => Except.ok (p, 2)
      | Except.error e2 => Except.error e2
    else Except.error e

/-- The `while len(comments) < max_comments` paging loop (lines 145-254).
`pageCount` is the number of completed iterations; the cap of line 252
stops after 10 pages, so the loop runs at most 10 iterations and the fuel
of 11 supplied by `get_comments` is never exhausted (the fuel-out branch
is unreachable).  Returns the comments, the accumulated reasons, the
`empty_response` flag and the call count. -/
def pagingLoop (svc : YTService) (maxC : Nat) (eM eR : Bool) :
    Nat → Nat → Option String → List YComment → List String → Nat →
      Except String (List YComment × List String × Bool × Nat)
  | 0, _, _, acc, rsn, calls => Except.ok (acc, rsn, false, calls)
  | fuel + 1, pageCount, token, acc, rsn, calls =>
    if maxC ≤ acc.length then Except.ok (acc, rsn, false, calls)
    else
      match requestPage svc token (min 100 (maxC - acc.length)) with
      | Except.error e => Except.error e
      | Except.ok (page, c) =>
        if page.items.isEmpty then
          Except.ok (acc,
            rsn ++ ["A API do YouTube retornou uma página vazia de comentários."],
            true, calls + c)
        else
          match processItems svc maxC eM eR page.items acc (calls + c) with
          | (acc2, calls2) =>
            match page.nextPageToken with
            | none => Except.ok (acc2, rsn, false, calls2)
            | some tok =>
              if maxC ≤ acc2.length then Except.ok (acc2, rsn, false, calls2)
              else if 10 ≤ pageCount + 1 then
                Except.ok (acc2, rsn ++ ["Limite de páginas atingido (10 páginas)."],
                  false, calls2)
              else pagingLoop svc maxC eM eR fuel (pageCount + 1) (some tok) acc2 rsn calls2

/-- Lines 285-307: walk the search results, keeping only items of kind
`youtube#comment`, skipping a missing `['id']['videoId']` (`KeyError`,
caught at line 305) and de-duplicating against the id set. -/
def searchDedup : List SearchItem → List YComment → List String → List YComment
  | [], acc, _ => acc
  | it :: rest, acc, ids =>
    if it.idKind = "youtube#comment" then
      match it.idVideoId with
      | none => searchDedup rest acc ids
      | some cid =>
        if cid ∈ ids then searchDedup rest acc ids
        else
          searchDedup rest
            (acc ++ [⟨it.channelTitle.getD "Anônimo", it.description.getD "", 0,
              it.publishedAt.getD "", "alternativo", none⟩])
            (ids ++ [cid])
    else searchDedup rest acc ids

/-- Lines 271-310: the best-effort alternative retrieval.  Its own
failures are caught by the `except Exception` of line 308 and recorded as
reasons: an empty `videos().list` items list raises `IndexError` at line
278, a missing `['snippet']['channelId']` raises `KeyError`; the recorded
messages abbreviate Python's.  The id set of line 273 is built from
`c.get('id', '')` over the existing comments, none of which has an `id`
key, so it is `{''}` when any comment exists and empty otherwise. -/
def searchPhase (svc : YTService) (maxC : Nat) (vitem : Option VideoStatsItem)
    (existing : List YComment) : List YComment × List String × Nat :=
  match vitem with
  | none => (existing, ["Método alternativo falhou: list index out of range"], 0)
  | some vi =>
    match vi.channelId with
    | none => (existing, ["Método alternativo falhou: 'snippet'"], 0)
    | some _ =>
      match svc.searchList (min 50 (maxC - existing.length)) with
      | Except.error e => (existing, ["Método alternativo falhou: " ++ e], 1)
      | Except.ok items =>
        (searchDedup items existing (if existing.isEmpty then [] else [""]), [], 1)

def reasonFiltered : String :=
  "Alguns comentários podem ter sido filtrados pela API do YouTube (spam, removidos pelo autor, etc)."

def reasonShortfall1 : String :=
  "Não foi possível extrair todos os comentários disponíveis. Isso pode ocorrer devido a limitações da API do YouTube ou porque alguns comentários estão ocultos/filtrados."

def reasonShortfall2 : String :=
  "A API do YouTube tem limitações conhecidas na extração de comentários. Alguns comentários podem estar ocultos pelo autor do vídeo, marcados como spam, ou não disponíveis através da API pública."

/-- Lines 256-333: the post-loop phases — the filtering reason (line 259),
the conditional fallback (lines 264-310) and the final shortfall reasons
(lines 315-324) — and the final result. -/
def getCommentsPhase3 (svc : YTService) (maxC avail : Nat)
    (vitem : Option VideoStatsItem) (cs : List YComment) (rsn : List String)
    (emptyResp : Bool) (calls : Nat) : List YComment × ExtractionInfo × Nat :=
  let rsn1 := if cs.length < maxC ∧ emptyResp = false ∧ cs.length < avail
              then rsn ++ [reasonFiltered] else rsn
  let fb := if cs.length < min maxC avail ∧ cs.length < avail then
      match searchPhase svc maxC vitem cs with
      | (cs2, extra, c2) =>
        (cs2, rsn1 ++ ["Tentando método alternativo para extrair mais comentários..."]
          ++ extra, calls + c2)
    else (cs, rsn1, calls)
  match fb with
  | (cs2, rsn2, calls2) =>
    (cs2,
      ⟨maxC, cs2.length, avail,
        if cs2.length < min maxC avail then rsn2 ++ [reasonShortfall1, reasonShortfall2]
        else rsn2⟩,
      calls2)

def flagReasons (eM eR : Bool) : List String :=
  if ¬eM ∧ eR then ["Configurado para extrair apenas respostas aos comentários."]
  else if eM ∧ ¬eR then ["Configurado para extrair apenas comentários principais."]
  else []

/-- Lines 134-254 plus the post-loop phases: the flag reasons and the
both-flags-false short circuit (lines 140-143), then the paging loop and
phase 3. -/
def getCommentsPhase2 (svc : YTService) (maxC : Nat) (eM eR : Bool) (avail : Nat)
    (vitem : Option VideoStatsItem) (rs0 : List String) :
    Except String (List YComment × ExtractionInfo × Nat) :=
  if ¬eM ∧ ¬eR then
    Except.ok ([],
      ⟨maxC, 0, avail, rs0 ++ ["Nenhum tipo de comentário selecionado para extração."]⟩, 0)
  else
    match pagingLoop svc maxC eM eR 11 0 none [] (rs0 ++ flagReasons eM eR) 0 with
    | Except.error e => Except.error e
    | Except.ok (cs, rsn, emptyResp, calls) =>
      Except.ok (getCommentsPhase3 svc maxC avail vitem cs rsn emptyResp calls)

/-- `get_comments` (lines 80-337) after video-id resolution: the
availability check (lines 110-128, with its zero-comments early return and
its low-availability reason), then phase 2. -/
def getComments (svc : YTService) (maxComments : Nat)
    (extract_main extract_replies : Bool) :
    Except String (List YComment × ExtractionInfo × Nat) :=
  match svc.videoStats with
  | Except.error e => Except.error e
  | Except.ok vitem =>
    match vitem with
    | some vi =>
      match vi.commentCount with
      | some n =>
        if n = 0 then
          Except.ok ([], ⟨maxComments, 0, n, ["O vídeo não tem comentários disponíveis."]⟩, 0)
        else
          getCommentsPhase2 svc maxComments extract_main extract_replies n vitem
            (if n < maxComments then
              ["O vídeo tem apenas " ++ toString n ++ " comentários disponíveis."]
            else [])
      | none => getCommentsPhase2 svc maxComments extract_main extract_replies 0 vitem []
    | none => getCommentsPhase2 svc maxComments extract_main extract_replies 0 vitem []

theorem getCommentsPhase2_both_false (svc : YTService) (maxC avail : Nat)
    (vitem : Option VideoStatsItem) (rs0 : List String) :
    getCommentsPhase2 svc maxC false false avail vitem rs0 =
      Except.ok ([],
        ⟨maxC, 0, avail, rs0 ++ ["Nenhum tipo de comentário selecionado para extração."]⟩,
        0) := by
  unfold getCommentsPhase2
  rw [if_pos (by simp)]

/-- C4: with both inclusion flags false, `get_comments` always returns an
empty comment collection together with a non-empty reasons list and
performs zero paging calls (`commentThreads`/`comments`/`search`) beyond
the initial availability count check (whose success is the hypothesis here;
its failure propagates as an exception before the flags are consulted). -/
theorem both_flags_false_short_circuit (svc : YTService) (maxC : Nat)
    (vi : Option VideoStatsItem) (h : svc.videoStats = Except.ok vi) :
    ∃ info, getComments svc maxC false false = Except.ok ([], info, 0) ∧
      info.reasons ≠ [] := by
  unfold getComments
  rw [h]
  cases vi with
  | none =>
    dsimp only
    exact ⟨_, getCommentsPhase2_both_false svc maxC 0 none [], by simp⟩
  | some vi2 =>
    dsimp only
    cases hc : vi2.commentCount with
    | none =>
      dsimp only
      exact ⟨_, getCommentsPhase2_both_false svc maxC 0 (some vi2) [], by simp⟩
    | some n =>
      dsimp only
      by_cases hn : n = 0
      · rw [if_pos hn]
        exact ⟨_, rfl, by simp⟩
      · rw [if_neg hn]
        exact ⟨_, getCommentsPhase2_both_false svc maxC n (some vi2) _, by simp⟩

def svcFlags : YTService :=
  { videoStats := Except.ok (some ⟨some 20, some "canal"⟩)
  , threadsFull := fun _ _ => Except.error "unused"
  , threadsBasic := fun _ _ => Except.error "unused"
  , repliesList := fun _ _ => Except.error "unused"
  , searchList := fun _ => Except.error "unused" }

theorem both_flags_false_short_circuit_witness :
    ∃ info, getComments svcFlags 10 false false = Except.ok ([], info, 0) ∧
      info.reasons ≠ [] :=
  both_flags_false_short_circuit svcFlags 10 (some ⟨some 20, some "canal"⟩) rfl

/-- C9: a page request that fails is retried exactly once with the reduced
parameter set when (and only when) the error mentions the rejected
parameter `moderationStatus`: a successful first call makes one upstream
call; a `moderationStatus` failure makes exactly two (the retry), whose
outcome — success or error — is what the caller sees; any other failure is
surfaced immediately with no retry. -/
theorem parameter_rejection_single_retry (svc : YTService) (token : Option String)
    (maxr : Nat) :
    (∀ p, svc.threadsFull token maxr = Except.ok p →
      requestPage svc token maxr = Except.ok (p, 1)) ∧
    (∀ e, svc.threadsFull token maxr = Except.error e →
      strContains e "moderationStatus" = false →
      requestPage svc token maxr = Except.error e) ∧
    (∀ e p, svc.threadsFull token maxr = Except.error e →
      strContains e "moderationStatus" = true →
      svc.threadsBasic token maxr = Except.ok p →
      requestPage svc token maxr = Except.ok (p, 2)) ∧
    (∀ e e2, svc.threadsFull token maxr = Except.error e →
      strContains e "moderationStatus" = true →
      svc.threadsBasic token maxr = Except.error e2 →
      requestPage svc token maxr = Except.error e2) := by
  refine ⟨?_, ?_, ?_, ?_⟩
  · intro p hp
    simp [requestPage, hp]
  · intro e he hc
    simp [requestPage, he, hc]
  · intro e p he hc hb
    simp [requestPage, he, hc, hb]
  · intro e e2 he hc hb
    simp [requestPage, he, hc, hb]

def svcRetry : YTService :=
  { videoStats := Except.ok none
  , threadsFull := fun _ _ => Except.error "parameter moderationStatus not supported"
  , threadsBasic := fun _ _ => Except.ok ⟨[], none⟩
  , repliesList := fun _ _ => Except.error "unused"
  , searchList := fun _ => Except.error "unused" }

def svcOtherError : YTService :=
  { videoStats := Except.ok none
  , threadsFull := fun _ _ => Except.error "quotaExceeded"
  , threadsBasic := fun _ _ => Except.ok ⟨[], none⟩
  , repliesList := fun _ _ => Except.error "unused"
  , searchList := fun _ => Except.error "unused" }

theorem parameter_rejection_single_retry_witness :
    requestPage svcRetry none 100 = Except.ok (⟨[], none⟩, 2) ∧
    requestPage svcOtherError none 100 = Except.error "quotaExceeded" :=
  ⟨(parameter_rejection_single_retry svcRetry none 100).2.2.1
      "parameter moderationStatus not supported" ⟨[], none⟩ rfl rfl rfl,
   (parameter_rejection_single_retry svcOtherError none 100).2.1
      "quotaExceeded" rfl rfl⟩

def snipMain1 : TopSnippet := ⟨some "Ana", some "Bom video", some 3, some "2024-01-01T00:00:00Z"⟩

def snipMain2 : TopSnippet := ⟨some "Bia", some "Legal", some 0, some "2024-01-03T00:00:00Z"⟩

def snipReply1 : TopSnippet := ⟨some "Rui", some "Concordo", some 1, some "2024-01-02T00:00:00Z"⟩

/-- A well-behaved service (it honors `maxResults` and reports 5 available
comments) on which the budget is violated: one page with two valid
threads, the first having one valid reply. -/
def svcOverflow : YTService :=
  { videoStats := Except.ok (some ⟨some 5, some "canal"⟩)
  , threadsFull := fun _ _ =>
      Except.ok ⟨[⟨"t1", some snipMain1, 1⟩, ⟨"t2", some snipMain2, 0⟩], none⟩
  , threadsBasic := fun _ _ => Except.error "unused"
  , repliesList := fun _ _ => Except.ok [⟨some snipReply1⟩]
  , searchList := fun _ => Except.ok [] }

/-- C3 (code bug): `get_comments` with `max_comments = 2` returns THREE
comments on `svcOverflow`.  The first thread's main comment and its reply
fill the budget, and the second thread's main comment is then appended
anyway — the emission of main comments (lines 186-199) carries no budget
check, so the documented maximum (`max_comments`, docstring line 86) is
exceeded. -/
theorem comment_budget_overflow :
    getComments svcOverflow 2 true true =
      Except.ok
        ([⟨"Ana", "Bom video", 3, "2024-01-01T00:00:00Z", "principal", none⟩,
          ⟨"Rui", "Concordo", 1, "2024-01-02T00:00:00Z", "resposta", some "Ana"⟩,
          ⟨"Bia", "Legal", 0, "2024-01-03T00:00:00Z", "principal", none⟩],
         ⟨2, 3, 5, []⟩, 2) ∧
    2 < 3 :=
  ⟨rfl, by decide⟩
